import Mathlib

/-!
Verification of the custody state machine of the SCM backend
(`backend/routes/product_routes.py`).

The embedding models the route handlers `create_product`,
`explicit_custody_transfer` and `delete_product` as pure functions over an
explicit state holding the product table, the user table, the history table
and the ledger (the ledger is the sequence of event payloads passed to
`Blockchain.add_block`).  Statuses and roles, which the Python code keeps as
strings drawn from the fixed tables at the top of the file, are modelled as
enumerations; latitude/longitude values are modelled by their rendered string
form (`Option String`, `none` = the JSON field is absent).
-/

/-- The eight product statuses, in the order of `STATUS_ORDER`
(`product_routes.py`, lines 15-18). -/
inductive Status
  | Created
  | ReadyForShipping
  | Shipped
  | InTransit
  | DeliveredToRetailer
  | AvailableForSale
  | Sold
  | Recalled
deriving DecidableEq, Repr

/-- The actor roles that appear in the routes (`manufacturer`, `distributor`,
`retailer`, `super_admin`). -/
inductive Role
  | manufacturer
  | distributor
  | retailer
  | super_admin
deriving DecidableEq, Repr

/-- `STATUS_ORDER` (lines 15-18). -/
def STATUS_ORDER : List Status :=
  [Status.Created, Status.ReadyForShipping, Status.Shipped, Status.InTransit,
   Status.DeliveredToRetailer, Status.AvailableForSale, Status.Sold, Status.Recalled]

/-- `ROLE_ALLOWED` (lines 19-23): the statuses each role may set.  A role with
no entry (`super_admin`) gets the default `[]` of `ROLE_ALLOWED.get(role, [])`
used at line 105. -/
def ROLE_ALLOWED : Role → List Status
  | Role.manufacturer => [Status.Created, Status.ReadyForShipping]
  | Role.distributor => [Status.Shipped, Status.InTransit, Status.DeliveredToRetailer]
  | Role.retailer => [Status.AvailableForSale, Status.Sold]
  | Role.super_admin => []

/-- `NEXT_ROLE_MAP` (lines 24-27): the role a transfer target must hold for a
custody-handoff status; `none` for non-handoff statuses. -/
def NEXT_ROLE_MAP : Status → Option Role
  | Status.ReadyForShipping => some Role.distributor
  | Status.DeliveredToRetailer => some Role.retailer
  | _ => none

/-- `DISTRIBUTOR_SEQUENCE_MAP` (lines 28-31): the required predecessor status
for a distributor setting the given status. -/
def DISTRIBUTOR_SEQUENCE_MAP : Status → Option Status
  | Status.InTransit => some Status.Shipped
  | Status.DeliveredToRetailer => some Status.InTransit
  | _ => none

/-- `status_index` (lines 33-35).  On the `Status` enumeration the lookup in
`STATUS_ORDER` always succeeds, so the `None` branch of the Python helper is
unreachable and the result is a plain `Nat`. -/
def status_index (s : Status) : Nat := STATUS_ORDER.indexOf s

/-- A row of the `Product` table as used by the routes:  `product_id`, `name`,
`owner`, `custodian`, `current_status`, `description`. -/
structure Product where
  product_id : String
  name : String
  owner : String
  custodian : String
  current_status : Status
  description : String
deriving DecidableEq, Repr

/-- A row of the `History` table as written by the routes (timestamps are not
modelled). -/
structure HistoryRec where
  product_id : String
  status : Status
  by_who : String
  latitude : Option String
  longitude : Option String
deriving DecidableEq, Repr

/-- The event payloads handed to `Blockchain.add_block` by the three routes.
`status_update` versus `custody_transfer` is the `type` tag chosen at
line 132; `location` is the rendered location string. -/
inductive LedgerEvent
  | create_product (product_id : String) (owner : String) (initial_custodian : String)
      (location : String)
  | status_update (product_id : String) (status : Status) (actor : String)
      (new_custodian : String) (location : String)
  | custody_transfer (product_id : String) (status : Status) (actor : String)
      (new_custodian : String) (location : String)
  | delete_product (product_id : String) (deleted_by : String)
deriving DecidableEq, Repr

/-- The `location` field of a ledger event, when the event carries one. -/
def LedgerEvent.location : LedgerEvent → Option String
  | LedgerEvent.create_product _ _ _ loc => some loc
  | LedgerEvent.status_update _ _ _ _ loc => some loc
  | LedgerEvent.custody_transfer _ _ _ _ loc => some loc
  | LedgerEvent.delete_product _ _ => none

/-- The mutable state the routes touch: the `Product` and `User` tables, the
`History` table and the blockchain's sequence of event payloads.  Users are
rows `(username, role)`. -/
structure State where
  products : List Product
  users : List (String × Role)
  history : List HistoryRec
  ledger : List LedgerEvent
deriving DecidableEq, Repr

/-- `Product.query.filter_by(product_id=pid).first()`: first row of the product
table with the given id. -/
def findProduct (ps : List Product) (pid : String) : Option Product :=
  ps.find? (fun p => p.product_id == pid)

/-- `User.query.filter_by(username=u).first()`: role of the first user row with
the given username. -/
def findUser (us : List (String × Role)) (u : String) : Option Role :=
  (us.find? (fun r => r.1 == u)).map (fun r => r.2)

/-- Replace the first product row with the given id (the ORM mutates the row
returned by `first()` in place). -/
def updateProduct (ps : List Product) (pid : String) (f : Product → Product) : List Product :=
  match ps with
  | [] => []
  | p :: rest =>
      if p.product_id == pid then f p :: rest else p :: updateProduct rest pid f

/-- Remove the first product row with the given id (`db.session.delete(product)`
on the row returned by `first()`). -/
def removeProduct (ps : List Product) (pid : String) : List Product :=
  match ps with
  | [] => []
  | p :: rest =>
      if p.product_id == pid then rest else p :: removeProduct rest pid

/-- Python truthiness test `not x` on an optional string field: missing or
empty. -/
def blank (o : Option String) : Bool :=
  match o with
  | none => true
  | some s => s == ""

/-- The location string `f"{lat},{lon}" if lat is not None else "N/A"`
(lines 66 and 135).  Python renders an absent `lon` as the string `None`. -/
def locationString (lat lon : Option String) : String :=
  match lat with
  | some a => a ++ "," ++ (match lon with | some b => b | none => "None")
  | none => "N/A"

/-- The distinct rejections of `explicit_custody_transfer`, one constructor per
early `return jsonify({"error": ...})` at lines 100-119, carrying the values
interpolated into the error message. -/
inductive TransferError
  | missingFields
  | productNotFound
  | wrongCustodian (custodian : String)
  | roleCannotSet (role : Role) (status : Status)
  | invalidTransition (fromStatus toStatus : Status)
  | invalidSequence (toStatus required : Status)
  | missingTransferTarget (status : Status)
  | recipientNotFound (username : String)
  | roleMismatch (expected : Role) (username : String) (actual : Role)
deriving DecidableEq, Repr

/-- The request body and JWT claims of a `POST /api/products/update` call:
`actor`/`role` from the JWT, the rest from the JSON body (`none` = field
absent). -/
structure TransferRequest where
  actor : String
  role : Role
  product_id : Option String
  status : Option Status
  transfer_to : Option String
  latitude : Option String
  longitude : Option String
deriving DecidableEq, Repr

/-- The success payload of `explicit_custody_transfer`: the updated product and
the appended ledger block's payload (`none` when the append failed and
`block_info` stayed `None`). -/
structure TransferOk where
  product : Product
  block : Option LedgerEvent
deriving DecidableEq, Repr

/-- Lines 108-111: the distributor sequence check; `none` means the check
passes. -/
def checkDistributorSequence (role : Role) (new_status current : Status) : Option TransferError :=
  if role = Role.distributor then
    match DISTRIBUTOR_SEQUENCE_MAP new_status with
    | some required =>
        if current ≠ required then some (TransferError.invalidSequence new_status required)
        else none
    | none => none
  else none

/-- Lines 113-120: compute `new_custodian`, which defaults to the actor and
becomes the validated transfer target on a handoff status. -/
def resolveNewCustodian (st : State) (req : TransferRequest) (new_status : Status) :
    Except TransferError String :=
  match NEXT_ROLE_MAP new_status with
  | none => Except.ok req.actor
  | some expected =>
      if blank req.transfer_to then
        Except.error (TransferError.missingTransferTarget new_status)
      else
        match findUser st.users (req.transfer_to.getD "") with
        | none => Except.error (TransferError.recipientNotFound (req.transfer_to.getD ""))
        | some actual =>
            if actual ≠ expected then
              Except.error (TransferError.roleMismatch expected (req.transfer_to.getD "") actual)
            else Except.ok (req.transfer_to.getD "")

/-- Validation prefix of `explicit_custody_transfer` (lines 100-120), checks in
source order; on success returns the requested status, the product row found,
and the `new_custodian` computed at lines 113-120. -/
def validateTransfer (st : State) (req : TransferRequest) :
    Except TransferError (Status × Product × String) :=
  if blank req.product_id ∨ req.status = none then Except.error TransferError.missingFields
  else
    match req.status with
    | none => Except.error TransferError.missingFields
    | some new_status =>
      match findProduct st.products (req.product_id.getD "") with
      | none => Except.error TransferError.productNotFound
      | some p =>
        if p.custodian ≠ req.actor ∧ req.role ≠ Role.super_admin then
          Except.error (TransferError.wrongCustodian p.custodian)
        else if new_status ∉ ROLE_ALLOWED req.role then
          Except.error (TransferError.roleCannotSet req.role new_status)
        else if status_index new_status ≤ status_index p.current_status then
          Except.error (TransferError.invalidTransition p.current_status new_status)
        else
          match checkDistributorSequence req.role new_status p.current_status with
          | some e => Except.error e
          | none =>
            match resolveNewCustodian st req new_status with
            | Except.error e => Except.error e
            | Except.ok new_custodian => Except.ok (new_status, p, new_custodian)

/-- The ledger payload built at lines 131-136: tag `custody_transfer` when the
status is a handoff status, else `status_update`. -/
def transferEvent (pid : String) (new_status : Status) (actor new_custodian loc : String) :
    LedgerEvent :=
  if (NEXT_ROLE_MAP new_status).isSome then
    LedgerEvent.custody_transfer pid new_status actor new_custodian loc
  else
    LedgerEvent.status_update pid new_status actor new_custodian loc

/-- The `History` row written at line 124 (status, actor, optional
coordinates). -/
def transferHistory (req : TransferRequest) (pid : String) (new_status : Status) : HistoryRec :=
  { product_id := pid, status := new_status, by_who := req.actor,
    latitude := req.latitude, longitude := req.longitude }

/-- `explicit_custody_transfer` (lines 94-140).  `ledgerOk = false` models
`bc.add_block` raising, which the handler catches at line 138, leaving
`block_info = None`.  Returns the state after the call and the JSON outcome. -/
def explicit_custody_transfer (st : State) (req : TransferRequest) (ledgerOk : Bool) :
    State × Except TransferError TransferOk :=
  match validateTransfer st req with
  | Except.error e => (st, Except.error e)
  | Except.ok (new_status, p, new_custodian) =>
      let p2 : Product := { p with custodian := new_custodian, current_status := new_status }
      let hist : HistoryRec := transferHistory req p.product_id new_status
      let committed : State :=
        { st with
          products := updateProduct st.products p.product_id (fun _ => p2),
          history := st.history ++ [hist] }
      let ev := transferEvent p.product_id new_status req.actor new_custodian
        (locationString req.latitude req.longitude)
      if ledgerOk then
        ({ committed with ledger := committed.ledger ++ [ev] },
          Except.ok { product := p2, block := some ev })
      else
        (committed, Except.ok { product := p2, block := none })

/-- The request body and JWT claims of a `POST /api/products/` call. -/
structure CreateRequest where
  actor : String
  name : Option String
  description : Option String
  latitude : Option String
  longitude : Option String
deriving DecidableEq, Repr

/-- Modelled from the spec: the column default of `current_status` lives in the
`Product` model class of `backend/models.py`, which is not among the route
files; the spec fixes it as "initial `current_status = Created`", matching the
`History` row with status `"Created"` the handler writes at line 58. -/
def initialStatus : Status := Status.Created

/-- `create_product` (lines 40-89), with the generated `gen_product_id()` value
passed in as `pid`.  Returns the new state and, on success, the new row and
the appended ledger payload. -/
def create_product (st : State) (req : CreateRequest) (pid : String) :
    State × Except Unit (Product × LedgerEvent) :=
  if blank req.name then (st, Except.error ())
  else
    let product : Product :=
      { product_id := pid, name := req.name.getD "", owner := req.actor,
        custodian := req.actor, current_status := initialStatus,
        description := req.description.getD "" }
    let hist : HistoryRec :=
      { product_id := pid, status := Status.Created, by_who := req.actor,
        latitude := req.latitude, longitude := req.longitude }
    let ev : LedgerEvent :=
      LedgerEvent.create_product pid req.actor req.actor
        (locationString req.latitude req.longitude)
    ({ products := st.products ++ [product], users := st.users,
       history := st.history ++ [hist], ledger := st.ledger ++ [ev] },
     Except.ok (product, ev))

/-- `delete_product` (lines 196-210): remove the product row and its history,
append a `delete_product` ledger payload.  Returns the new state and whether
the product was found. -/
def delete_product (st : State) (pid : String) (actor : String) : State × Bool :=
  match findProduct st.products pid with
  | none => (st, false)
  | some _ =>
      ({ products := removeProduct st.products pid,
         users := st.users,
         history := st.history.filter (fun h => h.product_id ≠ pid),
         ledger := st.ledger ++ [LedgerEvent.delete_product pid actor] },
       true)

/-- The state-mutating operations of the product routes (the remaining routes
are read-only queries). -/
inductive Op
  | createOp (req : CreateRequest) (pid : String)
  | transferOp (req : TransferRequest) (ledgerOk : Bool)
  | deleteOp (pid : String) (actor : String)

/-- The state after running one operation. -/
def step (st : State) : Op → State
  | Op.createOp req pid => (create_product st req pid).1
  | Op.transferOp req ledgerOk => (explicit_custody_transfer st req ledgerOk).1
  | Op.deleteOp pid actor => (delete_product st pid actor).1

/-! ### A concrete scenario, following the walkthrough of the spec:
manufacturer alice holds product P1; bob and carol are distributors, dan a
retailer. -/

def prodW : Product :=
  { product_id := "P1", name := "Widget", owner := "alice", custodian := "alice",
    current_status := Status.Created, description := "" }

def stW : State :=
  { products := [prodW],
    users := [("alice", Role.manufacturer), ("bob", Role.distributor),
              ("carol", Role.distributor), ("dan", Role.retailer)],
    history := [], ledger := [] }

/-- Alice hands P1 to distributor bob via `ReadyForShipping`. -/
def reqW : TransferRequest :=
  { actor := "alice", role := Role.manufacturer, product_id := some "P1",
    status := some Status.ReadyForShipping, transfer_to := some "bob",
    latitude := some "1.5", longitude := some "2.5" }

def prodW2 : Product :=
  { prodW with custodian := "bob", current_status := Status.ReadyForShipping }

def outW : TransferOk :=
  { product := prodW2,
    block := some (LedgerEvent.custody_transfer "P1" Status.ReadyForShipping
      "alice" "bob" "1.5,2.5") }

/-- Alice re-requests the current status `Created` (a non-increasing index). -/
def reqSameW : TransferRequest :=
  { actor := "alice", role := Role.manufacturer, product_id := some "P1",
    status := some Status.Created, transfer_to := none,
    latitude := none, longitude := none }

/-- Carol, who is not the custodian, requests `InTransit`. -/
def reqCW : TransferRequest :=
  { actor := "carol", role := Role.distributor, product_id := some "P1",
    status := some Status.InTransit, transfer_to := none,
    latitude := none, longitude := none }

/-- A handoff request without a transfer target. -/
def reqNoTargetW : TransferRequest :=
  { reqW with transfer_to := none }

/-- A handoff request to an unknown user. -/
def reqUnknownW : TransferRequest :=
  { reqW with transfer_to := some "eve" }

/-- A handoff request to dan, a retailer rather than a distributor. -/
def reqWrongRoleW : TransferRequest :=
  { reqW with transfer_to := some "dan" }

/-- P1 held by bob in status `Shipped`. -/
def prodShippedW : Product :=
  { prodW with custodian := "bob", current_status := Status.Shipped }

def stShippedW : State := { stW with products := [prodShippedW] }

/-- Bob moves P1 to `InTransit`. -/
def reqInTransitW : TransferRequest :=
  { actor := "bob", role := Role.distributor, product_id := some "P1",
    status := some Status.InTransit, transfer_to := none,
    latitude := none, longitude := none }

/-- P1 held by bob in status `ReadyForShipping` (scenario D: `Shipped` was
skipped). -/
def prodReadyW : Product :=
  { prodW with custodian := "bob", current_status := Status.ReadyForShipping }

def stReadyW : State := { stW with products := [prodReadyW] }

/-- Alice requests the unreachable status `Recalled`. -/
def reqRecalledW : TransferRequest :=
  { actor := "alice", role := Role.manufacturer, product_id := some "P1",
    status := some Status.Recalled, transfer_to := none,
    latitude := none, longitude := none }

/-- A `super_admin` requests `Sold`. -/
def reqAdminW : TransferRequest :=
  { actor := "root", role := Role.super_admin, product_id := some "P1",
    status := some Status.Sold, transfer_to := none,
    latitude := none, longitude := none }

/-- A product already in status `Recalled`. -/
def prodRecalledW : Product := { prodW with current_status := Status.Recalled }

def stRecalledW : State := { stW with products := [prodRecalledW] }

/-- Alice creates a second product with coordinates. -/
def reqCreateW : CreateRequest :=
  { actor := "alice", name := some "Gadget", description := none,
    latitude := some "1.5", longitude := some "2.5" }

def prodNewW : Product :=
  { product_id := "P2", name := "Gadget", owner := "alice", custodian := "alice",
    current_status := initialStatus, description := "" }

def evCreateW : LedgerEvent :=
  LedgerEvent.create_product "P2" "alice" "alice" "1.5,2.5"

def histCreateW : HistoryRec :=
  { product_id := "P2", status := Status.Created, by_who := "alice",
    latitude := some "1.5", longitude := some "2.5" }

def stCreatedW : State :=
  { products := stW.products ++ [prodNewW], users := stW.users,
    history := stW.history ++ [histCreateW], ledger := stW.ledger ++ [evCreateW] }

/-! ### Basic lemmas about the table lookups and the commit helpers -/

theorem findProduct_id {ps : List Product} {pid : String} {p : Product}
    (h : findProduct ps pid = some p) : p.product_id = pid := by
  have := List.find?_some h
  simpa using this

theorem findProduct_append {ps : List Product} {pid : String} {p : Product} (q : Product)
    (h : findProduct ps pid = some p) : findProduct (ps ++ [q]) pid = some p := by
  induction ps with
  | nil => simp [findProduct] at h
  | cons a rest ih =>
      unfold findProduct at h ⊢
      by_cases ha : (a.product_id == pid) = true
      · simp [List.find?, ha] at h ⊢
        exact h
      · simp only [List.cons_append, List.find?] at h ⊢
        rw [Bool.not_eq_true] at ha
        rw [ha] at h ⊢
        exact ih h

theorem findProduct_updateProduct_self {ps : List Product} {pid : String} {p : Product}
    (p2 : Product) (hid : p2.product_id = pid)
    (h : findProduct ps pid = some p) :
    findProduct (updateProduct ps pid (fun _ => p2)) pid = some p2 := by
  induction ps with
  | nil => simp [findProduct] at h
  | cons a rest ih =>
      unfold findProduct at h ⊢
      unfold updateProduct
      by_cases ha : (a.product_id == pid) = true
      · simp [ha, List.find?, hid]
      · rw [Bool.not_eq_true] at ha
        simp only [ha, if_false]
        simp only [List.find?, ha] at h ⊢
        exact ih h

theorem findProduct_updateProduct_ne {ps : List Product} {pid pid2 : String}
    (p2 : Product) (hid : p2.product_id = pid) (hne : pid2 ≠ pid) :
    findProduct (updateProduct ps pid (fun _ => p2)) pid2 = findProduct ps pid2 := by
  induction ps with
  | nil => rfl
  | cons a rest ih =>
      unfold updateProduct
      by_cases ha : (a.product_id == pid) = true
      · have ha2 : (a.product_id == pid2) = false := by
          rw [beq_iff_eq] at ha
          rw [beq_eq_false_iff_ne, ha]
          exact fun hc => hne hc.symm
        have hp2 : (p2.product_id == pid2) = false := by
          rw [beq_eq_false_iff_ne, hid]
          exact fun hc => hne hc.symm
        simp only [ha, if_true]
        unfold findProduct
        simp [List.find?, ha2, hp2]
      · rw [Bool.not_eq_true] at ha
        simp only [ha, if_false]
        unfold findProduct at ih ⊢
        simp only [List.find?]
        cases hb : (a.product_id == pid2) <;> simp [ih]

theorem findProduct_removeProduct_ne {ps : List Product} {pid pid2 : String}
    (hne : pid2 ≠ pid) :
    findProduct (removeProduct ps pid) pid2 = findProduct ps pid2 := by
  induction ps with
  | nil => rfl
  | cons a rest ih =>
      unfold removeProduct
      by_cases ha : (a.product_id == pid) = true
      · have ha2 : (a.product_id == pid2) = false := by
          rw [beq_iff_eq] at ha
          rw [beq_eq_false_iff_ne, ha]
          exact fun hc => hne hc.symm
        simp only [ha, if_true]
        unfold findProduct
        simp [List.find?, ha2]
      · rw [Bool.not_eq_true] at ha
        simp only [ha, if_false]
        unfold findProduct at ih ⊢
        simp only [List.find?]
        cases hb : (a.product_id == pid2) <;> simp [ih]

theorem findProduct_none_of_not_mem {ps : List Product} {pid : String}
    (h : pid ∉ ps.map Product.product_id) : findProduct ps pid = none := by
  induction ps with
  | nil => rfl
  | cons a rest ih =>
      simp only [List.map_cons, List.mem_cons] at h
      push_neg at h
      unfold findProduct
      have ha : (a.product_id == pid) = false := by
        rw [beq_eq_false_iff_ne]
        exact fun hc => h.1 hc.symm
      simp only [List.find?, ha]
      exact ih h.2

theorem findProduct_removeProduct_self {ps : List Product} {pid : String}
    (hnd : (ps.map Product.product_id).Nodup) :
    findProduct (removeProduct ps pid) pid = none := by
  induction ps with
  | nil => rfl
  | cons a rest ih =>
      simp only [List.map_cons, List.nodup_cons] at hnd
      unfold removeProduct
      by_cases ha : (a.product_id == pid) = true
      · simp only [ha, if_true]
        rw [beq_iff_eq] at ha
        apply findProduct_none_of_not_mem
        rw [← ha]
        exact hnd.1
      · rw [Bool.not_eq_true] at ha
        simp only [ha, if_false]
        unfold findProduct
        simp only [List.find?, ha]
        exact ih hnd.2

/-! ### Shape lemmas for `explicit_custody_transfer` -/

theorem transfer_of_validate_error {st : State} {req : TransferRequest} {e : TransferError}
    (lok : Bool) (h : validateTransfer st req = Except.error e) :
    explicit_custody_transfer st req lok = (st, Except.error e) := by
  unfold explicit_custody_transfer
  rw [h]

theorem transfer_of_validate_ok {st : State} {req : TransferRequest} {ns : Status}
    {p : Product} {nc : String} (lok : Bool)
    (h : validateTransfer st req = Except.ok (ns, p, nc)) :
    explicit_custody_transfer st req lok =
      ({ products := updateProduct st.products p.product_id
            (fun _ => { p with custodian := nc, current_status := ns }),
         users := st.users,
         history := st.history ++ [transferHistory req p.product_id ns],
         ledger := if lok then
             st.ledger ++ [transferEvent p.product_id ns req.actor nc
               (locationString req.latitude req.longitude)]
           else st.ledger },
       Except.ok
         ({ product := { p with custodian := nc, current_status := ns },
            block := if lok then
                some (transferEvent p.product_id ns req.actor nc
                  (locationString req.latitude req.longitude))
              else none })) := by
  unfold explicit_custody_transfer
  rw [h]
  cases lok <;> rfl

theorem validate_ok_inv {st : State} {req : TransferRequest} {ns : Status} {p : Product}
    {nc : String} (h : validateTransfer st req = Except.ok (ns, p, nc)) :
    blank req.product_id = false ∧
    req.status = some ns ∧
    findProduct st.products (req.product_id.getD "") = some p ∧
    (p.custodian = req.actor ∨ req.role = Role.super_admin) ∧
    ns ∈ ROLE_ALLOWED req.role ∧
    status_index p.current_status < status_index ns ∧
    checkDistributorSequence req.role ns p.current_status = none ∧
    resolveNewCustodian st req ns = Except.ok nc := by
  unfold validateTransfer at h
  split at h
  · exact Except.noConfusion h
  · rename_i hcond
    push_neg at hcond
    obtain ⟨hpid, hstat⟩ := hcond
    split at h
    · exact Except.noConfusion h
    · rename_i ns0 hst
      split at h
      · exact Except.noConfusion h
      · rename_i p0 hfind
        split at h
        · exact Except.noConfusion h
        · rename_i hcust
          split at h
          · exact Except.noConfusion h
          · rename_i hrole
            split at h
            · exact Except.noConfusion h
            · rename_i hidx
              split at h
              · exact Except.noConfusion h
              · rename_i hseq
                split at h
                · exact Except.noConfusion h
                · rename_i nc0 hres
                  simp only [Except.ok.injEq, Prod.mk.injEq] at h
                  obtain ⟨h1, h2, h3⟩ := h
                  subst h1; subst h2; subst h3
                  refine ⟨by simpa using hpid, hst, hfind, ?_, ?_, ?_, hseq, hres⟩
                  · rcases not_and_or.mp hcust with hc | hc
                    · exact Or.inl (not_not.mp hc)
                    · exact Or.inr (not_not.mp hc)
                  · exact not_not.mp hrole
                  · exact Nat.lt_of_not_le hidx

theorem resolve_ok_inv {st : State} {req : TransferRequest} {ns : Status} {nc : String}
    (h : resolveNewCustodian st req ns = Except.ok nc) :
    (NEXT_ROLE_MAP ns = none ∧ nc = req.actor) ∨
    (∃ expected, NEXT_ROLE_MAP ns = some expected ∧
      blank req.transfer_to = false ∧ nc = req.transfer_to.getD "" ∧
      findUser st.users nc = some expected) := by
  unfold resolveNewCustodian at h
  split at h
  · rename_i hmap
    left
    refine ⟨hmap, ?_⟩
    simpa using h.symm
  · rename_i expected hmap
    right
    refine ⟨expected, hmap, ?_⟩
    split at h
    · exact Except.noConfusion h
    · rename_i hblank
      rw [Bool.not_eq_true] at hblank
      refine ⟨hblank, ?_⟩
      split at h
      · exact Except.noConfusion h
      · rename_i actual hfound
        split at h
        · exact Except.noConfusion h
        · rename_i hrole
          have hnc : nc = req.transfer_to.getD "" := by simpa using h.symm
          refine ⟨hnc, ?_⟩
          rw [hnc]
          rw [hfound, not_not.mp hrole]

theorem checkSeq_none_required {ns cur required : Status}
    (h : checkDistributorSequence Role.distributor ns cur = none)
    (hmap : DISTRIBUTOR_SEQUENCE_MAP ns = some required) : cur = required := by
  unfold checkDistributorSequence at h
  rw [hmap] at h
  simp at h
  exact h

theorem mem_roleAllowed_ne_super_admin {ns : Status} {r : Role}
    (h : ns ∈ ROLE_ALLOWED r) : r ≠ Role.super_admin := by
  intro hr
  subst hr
  simp [ROLE_ALLOWED] at h

/-- Any operation either leaves a tracked product row unchanged or is an
accepted transfer that rewrote exactly that row. -/
theorem step_find_cases (st : State) (op : Op) (pid : String) (p p' : Product)
    (hnd : (st.products.map Product.product_id).Nodup)
    (hbefore : findProduct st.products pid = some p)
    (hafter : findProduct (step st op).products pid = some p') :
    p' = p ∨
    ∃ req lok ns nc, op = Op.transferOp req lok ∧
      validateTransfer st req = Except.ok (ns, p, nc) ∧
      p' = { p with custodian := nc, current_status := ns } := by
  cases op with
  | createOp req pid2 =>
      left
      simp only [step] at hafter
      unfold create_product at hafter
      split at hafter
      · dsimp only at hafter
        rw [hbefore] at hafter
        exact ((Option.some.injEq _ _).mp hafter).symm
      · dsimp only at hafter
        rw [findProduct_append _ hbefore] at hafter
        exact ((Option.some.injEq _ _).mp hafter).symm
  | transferOp req lok =>
      simp only [step] at hafter
      cases hv : validateTransfer st req with
      | error e =>
          left
          rw [transfer_of_validate_error lok hv] at hafter
          dsimp only at hafter
          rw [hbefore] at hafter
          exact ((Option.some.injEq _ _).mp hafter).symm
      | ok v =>
          obtain ⟨ns, p0, nc⟩ := v
          have hinv := validate_ok_inv hv
          have hfind0 := hinv.2.2.1
          have hkey : p0.product_id = req.product_id.getD "" := findProduct_id hfind0
          rw [transfer_of_validate_ok lok hv] at hafter
          dsimp only at hafter
          by_cases hpp : pid = p0.product_id
          · have hkey2 : req.product_id.getD "" = pid := by rw [← hkey, hpp]
            rw [hkey2, hbefore] at hfind0
            have hp0 : p0 = p := ((Option.some.injEq _ _).mp hfind0).symm
            subst hp0
            rw [hpp] at hbefore hafter
            rw [@findProduct_updateProduct_self st.products p0.product_id p0
              { p0 with custodian := nc, current_status := ns } rfl hbefore] at hafter
            right
            exact ⟨req, lok, ns, nc, rfl, hv, ((Option.some.injEq _ _).mp hafter).symm⟩
          · left
            rw [@findProduct_updateProduct_ne st.products p0.product_id pid
              { p0 with custodian := nc, current_status := ns } rfl hpp] at hafter
            rw [hbefore] at hafter
            exact ((Option.some.injEq _ _).mp hafter).symm
  | deleteOp pid2 actor =>
      left
      simp only [step] at hafter
      unfold delete_product at hafter
      split at hafter
      · dsimp only at hafter
        rw [hbefore] at hafter
        exact ((Option.some.injEq _ _).mp hafter).symm
      · dsimp only at hafter
        by_cases hpp : pid = pid2
        · subst hpp
          rw [findProduct_removeProduct_self hnd] at hafter
          exact Option.noConfusion hafter
        · rw [findProduct_removeProduct_ne hpp] at hafter
          rw [hbefore] at hafter
          exact ((Option.some.injEq _ _).mp hafter).symm

/-! ### The claims -/

/-- C2: every transition request rejected by a validation or authorization
rule (missing field, product not found, wrong custodian, role not permitted,
non-monotonic status, invalid distributor sequence, missing or invalid
transfer target) leaves the whole state — products, history and ledger —
exactly as it was: all checks run before any mutation. -/
theorem claim_C2_reject_no_mutation :
    ∀ (st : State) (req : TransferRequest) (lok : Bool) (st' : State) (e : TransferError),
      explicit_custody_transfer st req lok = (st', Except.error e) → st' = st := by
  intro st req lok st' e h
  cases hv : validateTransfer st req with
  | error e2 =>
      rw [transfer_of_validate_error lok hv] at h
      injection h with h1 h2
      exact h1.symm
  | ok v =>
      obtain ⟨ns, p, nc⟩ := v
      rw [transfer_of_validate_ok lok hv] at h
      injection h with h1 h2
      exact Except.noConfusion h2

/-- C3: a transition request on an existing product whose actor is not the
current custodian and whose role is not `super_admin` is rejected with the
wrong-custodian `Forbidden` error naming the current custodian, whatever the
requested status, and the state is unchanged. -/
theorem claim_C3_custodian_gate :
    ∀ (st : State) (req : TransferRequest) (lok : Bool) (pid : String) (ns : Status)
      (p : Product),
      req.product_id = some pid → pid ≠ "" → req.status = some ns →
      findProduct st.products pid = some p →
      p.custodian ≠ req.actor → req.role ≠ Role.super_admin →
      explicit_custody_transfer st req lok =
        (st, Except.error (TransferError.wrongCustodian p.custodian)) := by
  intro st req lok pid ns p hpid hne hst hfind hc hr
  have hv : validateTransfer st req =
      Except.error (TransferError.wrongCustodian p.custodian) := by
    unfold validateTransfer
    rw [hpid, hst]
    simp [blank, hne, hfind, hc, hr]
  exact transfer_of_validate_error lok hv

/-- C1: (i) every accepted transition strictly increases the index of the
product's status in `STATUS_ORDER`; (ii) a request whose requested status has
index less than or equal to the current one and that reaches the monotonicity
check (the earlier existence / custodian / role checks pass) is rejected with
the `InvalidTransition` error and no state change; (iii) hence across any
operation the index of a product's `current_status` never decreases. -/
theorem claim_C1_status_monotonicity :
    (∀ (st : State) (req : TransferRequest) (lok : Bool) (p : Product) (out : TransferOk),
        findProduct st.products (req.product_id.getD "") = some p →
        (explicit_custody_transfer st req lok).2 = Except.ok out →
        status_index p.current_status < status_index out.product.current_status) ∧
    (∀ (st : State) (req : TransferRequest) (lok : Bool) (pid : String) (ns : Status)
        (p : Product),
        req.product_id = some pid → pid ≠ "" → req.status = some ns →
        findProduct st.products pid = some p →
        (p.custodian = req.actor ∨ req.role = Role.super_admin) →
        ns ∈ ROLE_ALLOWED req.role →
        status_index ns ≤ status_index p.current_status →
        explicit_custody_transfer st req lok =
          (st, Except.error (TransferError.invalidTransition p.current_status ns))) ∧
    (∀ (st : State) (op : Op) (pid : String) (p p' : Product),
        (st.products.map Product.product_id).Nodup →
        findProduct st.products pid = some p →
        findProduct (step st op).products pid = some p' →
        status_index p.current_status ≤ status_index p'.current_status) := by
  refine ⟨?_, ?_, ?_⟩
  · intro st req lok p out hfind hok
    cases hv : validateTransfer st req with
    | error e =>
        rw [transfer_of_validate_error lok hv] at hok
        exact Except.noConfusion hok
    | ok v =>
        obtain ⟨ns, p0, nc⟩ := v
        have hinv := validate_ok_inv hv
        rw [hinv.2.2.1] at hfind
        have hp0 : p0 = p := (Option.some.injEq _ _).mp hfind
        subst hp0
        rw [transfer_of_validate_ok lok hv] at hok
        simp only [Except.ok.injEq] at hok
        rw [← hok]
        exact hinv.2.2.2.2.2.1
  · intro st req lok pid ns p hpid hne hst hfind hcust hmem hle
    have hv : validateTransfer st req =
        Except.error (TransferError.invalidTransition p.current_status ns) := by
      unfold validateTransfer
      rw [hpid, hst]
      rcases hcust with hc | hc
      · simp [blank, hne, hfind, hc, hmem, hle]
      · exact absurd hmem (by rw [hc]; simp [ROLE_ALLOWED])
    exact transfer_of_validate_error lok hv
  · intro st op pid p p' hnd hbefore hafter
    rcases step_find_cases st op pid p p' hnd hbefore hafter with h | ⟨req, lok, ns, nc, hop, hv, hp'⟩
    · rw [h]
    · have hinv := validate_ok_inv hv
      rw [hp']
      exact Nat.le_of_lt hinv.2.2.2.2.2.1

/-- C10: a `super_admin` passes the custodian check but has no entry in
`ROLE_ALLOWED`, so (i) a well-formed request by a `super_admin` on an existing
product is rejected at the role-permission check; (ii) every `super_admin`
request whatsoever is rejected with no state change; (iii) consequently every
accepted transition has the current custodian as actor and a role other than
`super_admin`. -/
theorem claim_C10_super_admin_never_accepted :
    (∀ (st : State) (req : TransferRequest) (lok : Bool) (pid : String) (ns : Status)
        (p : Product),
        req.role = Role.super_admin →
        req.product_id = some pid → pid ≠ "" → req.status = some ns →
        findProduct st.products pid = some p →
        explicit_custody_transfer st req lok =
          (st, Except.error (TransferError.roleCannotSet Role.super_admin ns))) ∧
    (∀ (st : State) (req : TransferRequest) (lok : Bool),
        req.role = Role.super_admin →
        (explicit_custody_transfer st req lok).1 = st ∧
        ∀ out : TransferOk, (explicit_custody_transfer st req lok).2 ≠ Except.ok out) ∧
    (∀ (st : State) (req : TransferRequest) (lok : Bool) (p : Product) (out : TransferOk),
        findProduct st.products (req.product_id.getD "") = some p →
        (explicit_custody_transfer st req lok).2 = Except.ok out →
        req.actor = p.custodian ∧ req.role ≠ Role.super_admin) := by
  refine ⟨?_, ?_, ?_⟩
  · intro st req lok pid ns p hrole hpid hne hst hfind
    have hv : validateTransfer st req =
        Except.error (TransferError.roleCannotSet Role.super_admin ns) := by
      unfold validateTransfer
      rw [hpid, hst, hrole]
      simp [blank, hne, hfind, ROLE_ALLOWED]
    exact transfer_of_validate_error lok hv
  · intro st req lok hrole
    cases hv : validateTransfer st req with
    | error e =>
        rw [transfer_of_validate_error lok hv]
        exact ⟨rfl, fun out hc => Except.noConfusion hc⟩
    | ok v =>
        obtain ⟨ns, p0, nc⟩ := v
        have hinv := validate_ok_inv hv
        have hmem := hinv.2.2.2.2.1
        rw [hrole] at hmem
        simp [ROLE_ALLOWED] at hmem
  · intro st req lok p out hfind hok
    cases hv : validateTransfer st req with
    | error e =>
        rw [transfer_of_validate_error lok hv] at hok
        exact Except.noConfusion hok
    | ok v =>
        obtain ⟨ns, p0, nc⟩ := v
        have hinv := validate_ok_inv hv
        rw [hinv.2.2.1] at hfind
        have hp0 : p0 = p := (Option.some.injEq _ _).mp hfind
        subst hp0
        have hr : req.role ≠ Role.super_admin :=
          mem_roleAllowed_ne_super_admin hinv.2.2.2.2.1
        rcases hinv.2.2.2.1 with hc | hc
        · exact ⟨hc.symm, hr⟩
        · exact absurd hc hr


/-- A transfer either leaves a tracked product row unchanged or was accepted
for exactly that row. -/
theorem transfer_find_cases (st : State) (req : TransferRequest) (lok : Bool)
    (pid : String) (p p' : Product)
    (hbefore : findProduct st.products pid = some p)
    (hafter : findProduct (explicit_custody_transfer st req lok).1.products pid = some p') :
    p' = p ∨
    ∃ ns nc, validateTransfer st req = Except.ok (ns, p, nc) ∧
      p' = { p with custodian := nc, current_status := ns } := by
  cases hv : validateTransfer st req with
  | error e =>
      left
      rw [transfer_of_validate_error lok hv] at hafter
      dsimp only at hafter
      rw [hbefore] at hafter
      exact ((Option.some.injEq _ _).mp hafter).symm
  | ok v =>
      obtain ⟨ns, p0, nc⟩ := v
      have hinv := validate_ok_inv hv
      have hfind0 := hinv.2.2.1
      have hkey : p0.product_id = req.product_id.getD "" := findProduct_id hfind0
      rw [transfer_of_validate_ok lok hv] at hafter
      dsimp only at hafter
      by_cases hpp : pid = p0.product_id
      · have hkey2 : req.product_id.getD "" = pid := by rw [← hkey, hpp]
        rw [hkey2, hbefore] at hfind0
        have hp0 : p0 = p := ((Option.some.injEq _ _).mp hfind0).symm
        subst hp0
        rw [hpp] at hbefore hafter
        rw [@findProduct_updateProduct_self st.products p0.product_id p0
          { p0 with custodian := nc, current_status := ns } rfl hbefore] at hafter
        right
        exact ⟨ns, nc, rfl, ((Option.some.injEq _ _).mp hafter).symm⟩
      · left
        rw [@findProduct_updateProduct_ne st.products p0.product_id pid
          { p0 with custodian := nc, current_status := ns } rfl hpp] at hafter
        rw [hbefore] at hafter
        exact ((Option.some.injEq _ _).mp hafter).symm

/-- C9: `Recalled` is in the status order but in no role's permitted set, so
(i) no role may set it; (ii) a well-formed request for `Recalled` on an
existing product that passes the custodian gate is rejected at the
role-permission check with no state change; (iii) a transfer never makes a
product `Recalled` that was not already `Recalled`. -/
theorem claim_C9_recalled_unreachable :
    (∀ r : Role, Status.Recalled ∉ ROLE_ALLOWED r) ∧
    (∀ (st : State) (req : TransferRequest) (lok : Bool) (pid : String) (p : Product),
        req.product_id = some pid → pid ≠ "" → req.status = some Status.Recalled →
        findProduct st.products pid = some p →
        (p.custodian = req.actor ∨ req.role = Role.super_admin) →
        explicit_custody_transfer st req lok =
          (st, Except.error (TransferError.roleCannotSet req.role Status.Recalled))) ∧
    (∀ (st : State) (req : TransferRequest) (lok : Bool) (pid : String) (p p' : Product),
        findProduct st.products pid = some p →
        findProduct (explicit_custody_transfer st req lok).1.products pid = some p' →
        p'.current_status = Status.Recalled → p.current_status = Status.Recalled) := by
  refine ⟨?_, ?_, ?_⟩
  · intro r
    cases r <;> simp [ROLE_ALLOWED]
  · intro st req lok pid p hpid hne hst hfind hcust
    have hrec : Status.Recalled ∉ ROLE_ALLOWED req.role := by
      cases req.role <;> simp [ROLE_ALLOWED]
    have hv : validateTransfer st req =
        Except.error (TransferError.roleCannotSet req.role Status.Recalled) := by
      unfold validateTransfer
      rw [hpid, hst]
      rcases hcust with hc | hc
      · simp [blank, hne, hfind, hc, hrec]
      · simp [blank, hne, hfind, hc, ROLE_ALLOWED]
    exact transfer_of_validate_error lok hv
  · intro st req lok pid p p' hbefore hafter hrec
    rcases transfer_find_cases st req lok pid p p' hbefore hafter with h | ⟨ns, nc, hv, hp'⟩
    · rw [← h]; exact hrec
    · have hinv := validate_ok_inv hv
      have hmem := hinv.2.2.2.2.1
      rw [hp'] at hrec
      simp only at hrec
      rw [hrec] at hmem
      exact absurd hmem (by cases req.role <;> simp [ROLE_ALLOWED])

/-- Forward evaluation of the validation pipeline up to the transfer-target
stage: when checks 1-5 pass, the outcome is decided by
`resolveNewCustodian`. -/
theorem validate_eval (st : State) (req : TransferRequest) (pid : String) (ns : Status)
    (p : Product)
    (hpid : req.product_id = some pid) (hne : pid ≠ "") (hst : req.status = some ns)
    (hfind : findProduct st.products pid = some p)
    (hcust : p.custodian = req.actor ∨ req.role = Role.super_admin)
    (hmem : ns ∈ ROLE_ALLOWED req.role)
    (hlt : status_index p.current_status < status_index ns)
    (hseq : checkDistributorSequence req.role ns p.current_status = none) :
    validateTransfer st req =
      match resolveNewCustodian st req ns with
      | Except.error e => Except.error e
      | Except.ok nc => Except.ok (ns, p, nc) := by
  unfold validateTransfer
  rw [hpid, hst]
  have hnle : ¬ status_index ns ≤ status_index p.current_status := not_le.mpr hlt
  rcases hcust with hc | hc
  · simp [blank, hne, hfind, hc, hmem, hnle, hseq]
  · exact absurd hc (mem_roleAllowed_ne_super_admin hmem)

/-- C4: a transition to a custody-handoff status (`ReadyForShipping`, handing
to a `distributor`; `DeliveredToRetailer`, handing to a `retailer`) that
reaches the transfer-target stage is rejected before any mutation when the
target is missing (`MissingTransferTarget`), unknown (`NotFound`), or of the
wrong role (`RoleMismatch`). -/
theorem claim_C4_handoff_target_validation :
    (NEXT_ROLE_MAP Status.ReadyForShipping = some Role.distributor ∧
     NEXT_ROLE_MAP Status.DeliveredToRetailer = some Role.retailer) ∧
    (∀ (st : State) (req : TransferRequest) (lok : Bool) (pid : String) (ns : Status)
        (p : Product) (expected : Role),
        req.product_id = some pid → pid ≠ "" → req.status = some ns →
        findProduct st.products pid = some p →
        (p.custodian = req.actor ∨ req.role = Role.super_admin) →
        ns ∈ ROLE_ALLOWED req.role →
        status_index p.current_status < status_index ns →
        checkDistributorSequence req.role ns p.current_status = none →
        NEXT_ROLE_MAP ns = some expected →
        (blank req.transfer_to = true →
          explicit_custody_transfer st req lok =
            (st, Except.error (TransferError.missingTransferTarget ns))) ∧
        (∀ t : String, req.transfer_to = some t → t ≠ "" →
          findUser st.users t = none →
          explicit_custody_transfer st req lok =
            (st, Except.error (TransferError.recipientNotFound t))) ∧
        (∀ (t : String) (actual : Role), req.transfer_to = some t → t ≠ "" →
          findUser st.users t = some actual → actual ≠ expected →
          explicit_custody_transfer st req lok =
            (st, Except.error (TransferError.roleMismatch expected t actual)))) := by
  refine ⟨⟨rfl, rfl⟩, ?_⟩
  intro st req lok pid ns p expected hpid hne hst hfind hcust hmem hlt hseq hmap
  have hval := validate_eval st req pid ns p hpid hne hst hfind hcust hmem hlt hseq
  refine ⟨?_, ?_, ?_⟩
  · intro hblank
    have hres : resolveNewCustodian st req ns =
        Except.error (TransferError.missingTransferTarget ns) := by
      unfold resolveNewCustodian
      rw [hmap]
      simp [hblank]
    rw [hres] at hval
    exact transfer_of_validate_error lok hval
  · intro t ht htne hfound
    have hres : resolveNewCustodian st req ns =
        Except.error (TransferError.recipientNotFound t) := by
      unfold resolveNewCustodian
      rw [hmap, ht]
      simp [blank, htne, hfound]
    rw [hres] at hval
    exact transfer_of_validate_error lok hval
  · intro t actual ht htne hfound hwrong
    have hres : resolveNewCustodian st req ns =
        Except.error (TransferError.roleMismatch expected t actual) := by
      unfold resolveNewCustodian
      rw [hmap, ht]
      simp [blank, htne, hfound, hwrong]
    rw [hres] at hval
    exact transfer_of_validate_error lok hval

/-- C5: for a distributor, `InTransit` requires the product to be exactly in
`Shipped` and `DeliveredToRetailer` exactly in `InTransit`: (i) every accepted
distributor transition to a status with a required predecessor starts from
that predecessor; (ii) a request reaching the sequence check from any other
current status — even a strictly earlier one — is rejected with
`InvalidSequence` and no state change. -/
theorem claim_C5_distributor_sequence :
    (∀ (st : State) (req : TransferRequest) (lok : Bool) (p : Product) (out : TransferOk)
        (required : Status),
        findProduct st.products (req.product_id.getD "") = some p →
        req.role = Role.distributor →
        (explicit_custody_transfer st req lok).2 = Except.ok out →
        DISTRIBUTOR_SEQUENCE_MAP out.product.current_status = some required →
        p.current_status = required) ∧
    (∀ (st : State) (req : TransferRequest) (lok : Bool) (pid : String) (ns : Status)
        (p : Product) (required : Status),
        req.product_id = some pid → pid ≠ "" → req.status = some ns →
        findProduct st.products pid = some p →
        (p.custodian = req.actor ∨ req.role = Role.super_admin) →
        req.role = Role.distributor →
        ns ∈ ROLE_ALLOWED req.role →
        status_index p.current_status < status_index ns →
        DISTRIBUTOR_SEQUENCE_MAP ns = some required →
        p.current_status ≠ required →
        explicit_custody_transfer st req lok =
          (st, Except.error (TransferError.invalidSequence ns required))) := by
  constructor
  · intro st req lok p out required hfind hrole hok hmap
    cases hv : validateTransfer st req with
    | error e =>
        rw [transfer_of_validate_error lok hv] at hok
        exact Except.noConfusion hok
    | ok v =>
        obtain ⟨ns, p0, nc⟩ := v
        have hinv := validate_ok_inv hv
        rw [hinv.2.2.1] at hfind
        have hp0 : p0 = p := (Option.some.injEq _ _).mp hfind
        subst hp0
        rw [transfer_of_validate_ok lok hv] at hok
        simp only [Except.ok.injEq] at hok
        have hcur : out.product.current_status = ns := by rw [← hok]
        rw [hcur] at hmap
        have hseq := hinv.2.2.2.2.2.2.1
        rw [hrole] at hseq
        exact checkSeq_none_required hseq hmap
  · intro st req lok pid ns p required hpid hne hst hfind hcust hrole hmem hlt hmap hneq
    have hnle : ¬ status_index ns ≤ status_index p.current_status := not_le.mpr hlt
    have hseq : checkDistributorSequence req.role ns p.current_status =
        some (TransferError.invalidSequence ns required) := by
      rw [hrole]
      unfold checkDistributorSequence
      rw [hmap]
      simp [hneq]
    have hv : validateTransfer st req =
        Except.error (TransferError.invalidSequence ns required) := by
      unfold validateTransfer
      rw [hpid, hst]
      rcases hcust with hc | hc
      · simp [blank, hne, hfind, hc, hmem, hnle, hseq]
      · exact absurd hc (mem_roleAllowed_ne_super_admin hmem)
    exact transfer_of_validate_error lok hv

/-- C6: when validation succeeds and the ledger append then fails, the failure
is caught: the call still returns success, the committed projection update
(new status, new custodian, appended `History` row) is kept, the ledger is
unchanged and the returned block field is `none`. -/
theorem claim_C6_ledger_failure_caught :
    ∀ (st : State) (req : TransferRequest) (ns : Status) (p : Product) (nc : String),
      validateTransfer st req = Except.ok (ns, p, nc) →
      explicit_custody_transfer st req false =
        ({ products := updateProduct st.products p.product_id
              (fun _ => { p with custodian := nc, current_status := ns }),
           users := st.users,
           history := st.history ++ [transferHistory req p.product_id ns],
           ledger := st.ledger },
         Except.ok { product := { p with custodian := nc, current_status := ns },
                     block := none }) := by
  intro st req ns p nc h
  rw [transfer_of_validate_ok false h]
  simp

/-- C7: after an accepted transition the custodian is the supplied transfer
target exactly when the requested status is a handoff status, and is unchanged
(equal to the acting custodian) otherwise; and no operation other than an
accepted handoff transfer ever changes a product's custodian. -/
theorem claim_C7_custodian_on_success :
    (∀ (st : State) (req : TransferRequest) (lok : Bool) (p : Product) (out : TransferOk),
        findProduct st.products (req.product_id.getD "") = some p →
        (explicit_custody_transfer st req lok).2 = Except.ok out →
        ((NEXT_ROLE_MAP out.product.current_status).isSome →
          req.transfer_to = some out.product.custodian) ∧
        (NEXT_ROLE_MAP out.product.current_status = none →
          out.product.custodian = p.custodian ∧ p.custodian = req.actor)) ∧
    (∀ (st : State) (op : Op) (pid : String) (p p' : Product),
        (st.products.map Product.product_id).Nodup →
        findProduct st.products pid = some p →
        findProduct (step st op).products pid = some p' →
        p'.custodian ≠ p.custodian →
        ∃ (req : TransferRequest) (lok : Bool), op = Op.transferOp req lok ∧
          ∃ (ns : Status) (nc : String),
            validateTransfer st req = Except.ok (ns, p, nc) ∧
            p' = { p with custodian := nc, current_status := ns } ∧
            (NEXT_ROLE_MAP ns).isSome ∧ req.transfer_to = some nc) := by
  constructor
  · intro st req lok p out hfind hok
    cases hv : validateTransfer st req with
    | error e =>
        rw [transfer_of_validate_error lok hv] at hok
        exact Except.noConfusion hok
    | ok v =>
        obtain ⟨ns, p0, nc⟩ := v
        have hfind0 := (validate_ok_inv hv).2.2.1
        rw [hfind0] at hfind
        have hp0 : p0 = p := (Option.some.injEq _ _).mp hfind
        rw [hp0] at hv
        have hinv := validate_ok_inv hv
        rw [transfer_of_validate_ok lok hv] at hok
        simp only [Except.ok.injEq] at hok
        have hcur : out.product.current_status = ns := by rw [← hok]
        have hcus : out.product.custodian = nc := by rw [← hok]
        have hgate : p.custodian = req.actor := by
          rcases hinv.2.2.2.1 with hc | hc
          · exact hc
          · exact absurd hc (mem_roleAllowed_ne_super_admin hinv.2.2.2.2.1)
        rcases resolve_ok_inv hinv.2.2.2.2.2.2.2 with ⟨hmap, hnc⟩ |
          ⟨expected, hmap, hblank, hnc, hrole⟩
        · rw [hcur, hcus]
          constructor
          · intro hsome
            rw [hmap] at hsome
            exact absurd hsome (by simp)
          · intro _
            rw [hnc, hgate]
            exact ⟨rfl, rfl⟩
        · rw [hcur, hcus]
          constructor
          · intro _
            cases ht : req.transfer_to with
            | none => rw [ht] at hblank; exact absurd hblank (by simp [blank])
            | some t =>
                rw [ht] at hnc
                simp only [Option.getD_some] at hnc
                rw [hnc]
          · intro hnone
            rw [hmap] at hnone
            exact Option.noConfusion hnone
  · intro st op pid p p' hnd hbefore hafter hch
    rcases step_find_cases st op pid p p' hnd hbefore hafter with h | ⟨req, lok, ns, nc, hop, hv, hp'⟩
    · exact absurd (by rw [h]) hch
    · have hinv := validate_ok_inv hv
      have hgate : p.custodian = req.actor := by
        rcases hinv.2.2.2.1 with hc | hc
        · exact hc
        · exact absurd hc (mem_roleAllowed_ne_super_admin hinv.2.2.2.2.1)
      rcases resolve_ok_inv hinv.2.2.2.2.2.2.2 with ⟨hmap, hnc⟩ |
        ⟨expected, hmap, hblank, hnc, hrole⟩
      · exfalso
        apply hch
        rw [hp']
        simp only
        rw [hnc, hgate]
      · refine ⟨req, lok, hop, ns, nc, hv, hp', by rw [hmap]; rfl, ?_⟩
        cases ht : req.transfer_to with
        | none => rw [ht] at hblank; exact absurd hblank (by simp [blank])
        | some t =>
            rw [ht] at hnc
            simp only [Option.getD_some] at hnc
            rw [hnc]

/-- C8: every ledger event appended by product creation or by an accepted
transition carries the location string, which is the supplied latitude and
longitude joined by a comma when coordinates are supplied and the sentinel
`N/A` when they are absent. -/
theorem claim_C8_ledger_location :
    (∀ (st : State) (req : CreateRequest) (pid : String) (st' : State) (p : Product)
        (ev : LedgerEvent),
        create_product st req pid = (st', Except.ok (p, ev)) →
        st'.ledger = st.ledger ++ [ev] ∧
        ev.location = some (locationString req.latitude req.longitude)) ∧
    (∀ (st : State) (req : TransferRequest) (ns : Status) (p : Product) (nc : String),
        validateTransfer st req = Except.ok (ns, p, nc) →
        (explicit_custody_transfer st req true).1.ledger =
          st.ledger ++ [transferEvent p.product_id ns req.actor nc
            (locationString req.latitude req.longitude)] ∧
        (transferEvent p.product_id ns req.actor nc
            (locationString req.latitude req.longitude)).location =
          some (locationString req.latitude req.longitude)) ∧
    (∀ a b : String, locationString (some a) (some b) = a ++ "," ++ b) ∧
    locationString none none = "N/A" := by
  refine ⟨?_, ?_, fun a b => rfl, rfl⟩
  · intro st req pid st' p ev h
    unfold create_product at h
    split at h
    · injection h with h1 h2
      exact Except.noConfusion h2
    · dsimp only at h
      injection h with h1 h2
      simp only [Except.ok.injEq, Prod.mk.injEq] at h2
      obtain ⟨hp, hev⟩ := h2
      subst hev
      rw [← h1]
      exact ⟨rfl, rfl⟩
  · intro st req ns p nc h
    rw [transfer_of_validate_ok true h]
    constructor
    · simp
    · unfold transferEvent
      split <;> rfl

/-! ### Witnesses instantiating each claim on the concrete scenario -/

theorem claim_C1_witness :
    status_index prodW.current_status < status_index outW.product.current_status ∧
    explicit_custody_transfer stW reqSameW true =
      (stW, Except.error (TransferError.invalidTransition Status.Created Status.Created)) ∧
    status_index prodW.current_status ≤ status_index prodW2.current_status :=
  ⟨claim_C1_status_monotonicity.1 stW reqW true prodW outW rfl rfl,
   claim_C1_status_monotonicity.2.1 stW reqSameW true "P1" Status.Created prodW rfl
     (by decide) rfl rfl (Or.inl rfl) (by decide) (by decide),
   claim_C1_status_monotonicity.2.2 stW (Op.transferOp reqW true) "P1" prodW prodW2
     (by decide) rfl rfl⟩

theorem claim_C2_witness : stW = stW :=
  claim_C2_reject_no_mutation stW reqCW true stW
    (TransferError.wrongCustodian "alice") rfl

theorem claim_C3_witness :
    explicit_custody_transfer stW reqCW true =
      (stW, Except.error (TransferError.wrongCustodian prodW.custodian)) :=
  claim_C3_custodian_gate stW reqCW true "P1" Status.InTransit prodW rfl (by decide)
    rfl rfl (by decide) (by decide)

theorem claim_C4_witness :
    explicit_custody_transfer stW reqNoTargetW true =
      (stW, Except.error (TransferError.missingTransferTarget Status.ReadyForShipping)) ∧
    explicit_custody_transfer stW reqUnknownW true =
      (stW, Except.error (TransferError.recipientNotFound "eve")) ∧
    explicit_custody_transfer stW reqWrongRoleW true =
      (stW, Except.error (TransferError.roleMismatch Role.distributor "dan"
        Role.retailer)) :=
  ⟨(claim_C4_handoff_target_validation.2 stW reqNoTargetW true "P1"
      Status.ReadyForShipping prodW Role.distributor rfl (by decide) rfl rfl
      (Or.inl rfl) (by decide) (by decide) rfl rfl).1 rfl,
   (claim_C4_handoff_target_validation.2 stW reqUnknownW true "P1"
      Status.ReadyForShipping prodW Role.distributor rfl (by decide) rfl rfl
      (Or.inl rfl) (by decide) (by decide) rfl rfl).2.1 "eve" rfl (by decide) rfl,
   (claim_C4_handoff_target_validation.2 stW reqWrongRoleW true "P1"
      Status.ReadyForShipping prodW Role.distributor rfl (by decide) rfl rfl
      (Or.inl rfl) (by decide) (by decide) rfl rfl).2.2 "dan" Role.retailer rfl
      (by decide) rfl (by decide)⟩

theorem claim_C5_witness :
    prodShippedW.current_status = Status.Shipped ∧
    explicit_custody_transfer stReadyW reqInTransitW true =
      (stReadyW, Except.error (TransferError.invalidSequence Status.InTransit
        Status.Shipped)) :=
  ⟨claim_C5_distributor_sequence.1 stShippedW reqInTransitW true prodShippedW
      { product := { prodShippedW with
                       custodian := "bob",
                       current_status := Status.InTransit },
        block := some (LedgerEvent.status_update "P1" Status.InTransit "bob" "bob"
          "N/A") }
      Status.Shipped rfl rfl rfl rfl,
   claim_C5_distributor_sequence.2 stReadyW reqInTransitW true "P1" Status.InTransit
      prodReadyW Status.Shipped rfl (by decide) rfl rfl (Or.inl rfl) rfl (by decide)
      (by decide) rfl (by decide)⟩

theorem claim_C6_witness :
    explicit_custody_transfer stW reqW false =
      ({ products := updateProduct stW.products prodW.product_id
            (fun _ => { prodW with
                          custodian := "bob",
                          current_status := Status.ReadyForShipping }),
         users := stW.users,
         history := stW.history ++ [transferHistory reqW prodW.product_id
           Status.ReadyForShipping],
         ledger := stW.ledger },
       Except.ok
         { product :=
             { prodW with
                 custodian := "bob",
                 current_status := Status.ReadyForShipping },
           block := none }) :=
  claim_C6_ledger_failure_caught stW reqW Status.ReadyForShipping prodW "bob" rfl

theorem claim_C7_witness :
    (((NEXT_ROLE_MAP outW.product.current_status).isSome →
        reqW.transfer_to = some outW.product.custodian) ∧
      (NEXT_ROLE_MAP outW.product.current_status = none →
        outW.product.custodian = prodW.custodian ∧ prodW.custodian = reqW.actor)) ∧
    (∃ (req : TransferRequest) (lok : Bool),
        Op.transferOp reqW true = Op.transferOp req lok ∧
        ∃ (ns : Status) (nc : String),
          validateTransfer stW req = Except.ok (ns, prodW, nc) ∧
          prodW2 = { prodW with custodian := nc, current_status := ns } ∧
          (NEXT_ROLE_MAP ns).isSome ∧ req.transfer_to = some nc) :=
  ⟨claim_C7_custodian_on_success.1 stW reqW true prodW outW rfl rfl,
   claim_C7_custodian_on_success.2 stW (Op.transferOp reqW true) "P1" prodW prodW2
     (by decide) rfl rfl (by decide)⟩

theorem claim_C8_witness :
    (stCreatedW.ledger = stW.ledger ++ [evCreateW] ∧
      evCreateW.location = some (locationString reqCreateW.latitude
        reqCreateW.longitude)) ∧
    ((explicit_custody_transfer stW reqW true).1.ledger =
        stW.ledger ++ [transferEvent prodW.product_id Status.ReadyForShipping
          reqW.actor "bob" (locationString reqW.latitude reqW.longitude)] ∧
      (transferEvent prodW.product_id Status.ReadyForShipping reqW.actor "bob"
          (locationString reqW.latitude reqW.longitude)).location =
        some (locationString reqW.latitude reqW.longitude)) :=
  ⟨claim_C8_ledger_location.1 stW reqCreateW "P2" stCreatedW prodNewW evCreateW rfl,
   claim_C8_ledger_location.2.1 stW reqW Status.ReadyForShipping prodW "bob" rfl⟩

theorem claim_C9_witness :
    Status.Recalled ∉ ROLE_ALLOWED Role.manufacturer ∧
    explicit_custody_transfer stW reqRecalledW true =
      (stW, Except.error (TransferError.roleCannotSet Role.manufacturer
        Status.Recalled)) ∧
    prodRecalledW.current_status = Status.Recalled :=
  ⟨claim_C9_recalled_unreachable.1 Role.manufacturer,
   claim_C9_recalled_unreachable.2.1 stW reqRecalledW true "P1" prodW rfl (by decide)
     rfl rfl (Or.inl rfl),
   claim_C9_recalled_unreachable.2.2 stRecalledW reqRecalledW true "P1" prodRecalledW
     prodRecalledW rfl rfl rfl⟩

theorem claim_C10_witness :
    explicit_custody_transfer stW reqAdminW true =
      (stW, Except.error (TransferError.roleCannotSet Role.super_admin Status.Sold)) ∧
    ((explicit_custody_transfer stW reqAdminW true).1 = stW ∧
      ∀ out : TransferOk,
        (explicit_custody_transfer stW reqAdminW true).2 ≠ Except.ok out) ∧
    (reqW.actor = prodW.custodian ∧ reqW.role ≠ Role.super_admin) :=
  ⟨claim_C10_super_admin_never_accepted.1 stW reqAdminW true "P1" Status.Sold prodW
      rfl rfl (by decide) rfl rfl,
   claim_C10_super_admin_never_accepted.2.1 stW reqAdminW true rfl,
   claim_C10_super_admin_never_accepted.2.2 stW reqW true prodW outW rfl rfl⟩
